import Mathlib

/-!
Verification of the `untagged-option` crate (`src/lib.rs`).

The crate exposes a single type,

  pub union UntaggedOption<T> { some: T, none: () }

with operations `none`, `some`, `take`, `as_ref`, `as_mut`.  The union has
no discriminant: its memory region either holds a valid `T` or unspecified
bytes, and the caller tracks which.

Shallow embedding: the semantic content of the memory region is an
`Option T` — `Option.some t` when the region holds a valid `T`
("Occupied"), `Option.none` when its bytes must not be read as a `T`
("Empty").  The three `unsafe` operations (`take`, `as_ref`, `as_mut`)
are embedded as `Option`-returning functions; the `Option.none` result
marks the branch whose behaviour in the source is undefined (reading the
`some` field of a union whose region is not a valid `T`).  The source
performs no runtime check of any kind, so that branch is not a detected
error — it is the embedding's marker for the undefined execution.
-/

/-- Semantic state of the memory region of `pub union UntaggedOption<T>`
(`lib.rs` lines 52–55): `Option.some t` when the region holds a valid `T`,
`Option.none` when the bytes are unspecified and must not be read as a `T`. -/
structure UntaggedOption (T : Type) where
  val : Option T
deriving DecidableEq, Repr

/-- Embeds `pub const fn none()` (`lib.rs` 61–65): writes the `none : ()`
field, so the region is not a valid `T`.  In the source this is a `const fn`
taking no `T`; here it is correspondingly a closed computable constant. -/
def UntaggedOption.none (T : Type) : UntaggedOption T :=
  ⟨Option.none⟩

/-- Embeds `pub const fn some(t: T)` (`lib.rs` 73–77): writes `t` into the
`some : T` field, so the region holds exactly `t`. -/
def UntaggedOption.some {T : Type} (t : T) : UntaggedOption T :=
  ⟨Option.some t⟩

/-- Embeds `pub unsafe fn take(&mut self) -> T` (`lib.rs` 89–91):
`replace(self, UntaggedOption::none()).some` — the container is replaced by
`none()` and the old union's `some` field is read.  Returns the taken value
together with the new container state; `Option.none` is the undefined
execution (old region not a valid `T`). -/
def UntaggedOption.take {T : Type} (u : UntaggedOption T) :
    Option (T × UntaggedOption T) :=
  u.val.map (fun t => (t, UntaggedOption.none T))

/-- Embeds `pub unsafe fn as_ref(&self) -> &T` (`lib.rs` 101–103): `&self.some`.
Embedded as the value read through the shared reference; `Option.none` is
the undefined execution (region not a valid `T`).  `&self` cannot change
the container, so no new state is returned. -/
def UntaggedOption.as_ref {T : Type} (u : UntaggedOption T) : Option T :=
  u.val

/-- Embeds `pub unsafe fn as_mut(&mut self) -> &mut T` (`lib.rs` 113–115):
`&mut self.some`.  A mutable reference is embedded as the current value
together with a setter producing the container state after a write through
the reference; `Option.none` is the undefined execution. -/
def UntaggedOption.as_mut {T : Type} (u : UntaggedOption T) :
    Option (T × (T → UntaggedOption T)) :=
  u.val.map (fun t => (t, fun w => ⟨Option.some w⟩))

/-- Writing `w` through the mutable reference obtained from `as_mut`
(`*opt.as_mut() = w`, as in the `static_context` test, `lib.rs` 128):
obtain the reference, then apply its setter. -/
def UntaggedOption.as_mut_write {T : Type} (u : UntaggedOption T) (w : T) :
    Option (UntaggedOption T) :=
  (u.as_mut).map (fun p => p.2 w)

/-- The caller-tracked occupancy state (the crate's docs, `lib.rs` 40–50:
the user must know when the option contains a valid value).  Observed on
the embedding state: `true` = Occupied, `false` = Empty. -/
def UntaggedOption.isOccupied {T : Type} (u : UntaggedOption T) : Bool :=
  u.val.isSome

/-! ### Drop semantics

`UntaggedOption<T>` has no `Drop` impl, and the fields of a Rust union are
never dropped by the union's drop glue (`#[allow(unions_with_drop_fields)]`,
`lib.rs` 51; docs `lib.rs` 45–47: "`UntaggedOption` does not destroy the
contained value when dropped").  A destructor's observable effect is
modelled as a function on an external `Nat` counter, as in the
`correct_drop` test (`lib.rs` 134–154), whose `MyDrop` destructor
increments a static counter. -/

/-- The two aggregate kinds relevant here: a struct's drop glue drops its
live fields; a union's drop glue never touches its fields. -/
inductive AggregateKind where
  | structKind
  | unionKind
deriving DecidableEq

/-- Effect on an external counter of running an aggregate's field drop
glue, given the field destructor `δ` and the region content: for a struct,
the held value (if the region holds one) is dropped; for a union, fields
are never dropped. -/
def fieldDropGlue {T : Type} :
    AggregateKind → (T → Nat → Nat) → Option T → Nat → Nat
  | AggregateKind.structKind, δ, Option.some t, c => δ t c
  | AggregateKind.structKind, _, Option.none, c => c
  | AggregateKind.unionKind, _, _, c => c

/-- Effect on an external counter of the container going out of scope
(`drop(opt)` in the `correct_drop` test): `UntaggedOption` is a union with
no `Drop` impl, so its drop glue is the union field rule. -/
def UntaggedOption.dropGlue {T : Type} (δ : T → Nat → Nat)
    (u : UntaggedOption T) (c : Nat) : Nat :=
  fieldDropGlue AggregateKind.unionKind δ u.val c

/-- Effect on an external counter of assigning a fresh container over `old`
(`opt = UntaggedOption::some(...)`): Rust assignment runs the drop glue of
the old value of the place before storing the new one. -/
def UntaggedOption.assignDropEffect {T : Type} (δ : T → Nat → Nat)
    (old : UntaggedOption T) (c : Nat) : Nat :=
  UntaggedOption.dropGlue δ old c

/-- The counting destructor of the `correct_drop` test (`lib.rs` 140–145):
`MyDrop`'s destructor increments the external counter by one. -/
def countDispose {T : Type} : T → Nat → Nat :=
  fun _ c => c + 1

/-! ### Layout

For the size claim, Rust's layout computation for
`pub union UntaggedOption<T> { some: T, none: () }` is embedded: a union's
alignment is the maximum of its fields' alignments, and its size is the
maximum of its fields' sizes rounded up to that alignment.  The `none`
field has type `()`, of size 0 and alignment 1. -/

/-- Size and alignment of a Rust type, in bytes.  Alignment is positive
and size is a multiple of alignment. -/
structure Layout where
  size : Nat
  align : Nat
  align_pos : 0 < align
  size_aligned : align ∣ size

/-- Rounds `n` up to the next multiple of `a`. -/
def roundUp (n a : Nat) : Nat :=
  (n + a - 1) / a * a

/-- Layout of the unit type `()`: size 0, alignment 1. -/
def unitLayout : Layout :=
  ⟨0, 1, Nat.one_pos, Dvd.intro 0 rfl⟩

/-- Rust layout of a two-field union: alignment is the maximum of the
field alignments; size is the maximum of the field sizes, rounded up to
the union's alignment. -/
def unionLayout (a b : Layout) : Layout where
  size := roundUp (max a.size b.size) (max a.align b.align)
  align := max a.align b.align
  align_pos := lt_max_of_lt_left a.align_pos
  size_aligned := dvd_mul_left _ _

/-- Layout of `UntaggedOption<T>` given the layout of `T`: the union of a
`T` field and a `()` field. -/
def untaggedOptionLayout (t : Layout) : Layout :=
  unionLayout t unitLayout

/-! ### Helper lemmas -/

/-- Rounding up to a positive alignment that already divides the size is
the identity. -/
theorem roundUp_dvd_eq (n a : Nat) (ha : 0 < a) (h : a ∣ n) : roundUp n a = n := by
  obtain ⟨q, rfl⟩ := h
  unfold roundUp
  rw [Nat.add_sub_assoc ha, Nat.mul_add_div ha,
    Nat.div_eq_of_lt (Nat.sub_lt ha Nat.one_pos), Nat.add_zero, Nat.mul_comm]

/-! ### Claims -/

/-- C1: for every value `v`, constructing with `UntaggedOption::some(v)` and
then calling `take` returns exactly `v` and leaves the container in the
state produced by `UntaggedOption::none()` (Empty); re-assigning a fresh
occupied container over that empty container runs no destructor of the
previous content (no double-store anomaly) and yields an Occupied
container. -/
theorem roundtrip_take_some (T : Type) (v w : T) (δ : T → Nat → Nat) (c : Nat) :
    UntaggedOption.take (UntaggedOption.some v)
      = Option.some (v, UntaggedOption.none T) ∧
    UntaggedOption.assignDropEffect δ (UntaggedOption.none T) c = c ∧
    UntaggedOption.isOccupied (UntaggedOption.some w) = true :=
  ⟨rfl, rfl, rfl⟩

/-- C2: after `UntaggedOption::some(v)`, writing `w` through the mutable
reference obtained from `as_mut` and then reading through `as_ref` yields
exactly `w`. -/
theorem as_mut_write_as_ref (T : Type) (v w : T) :
    (UntaggedOption.as_mut_write (UntaggedOption.some v) w).bind
        UntaggedOption.as_ref
      = Option.some w :=
  rfl

/-- C3: for every Occupied container, the container's own drop glue (scope
exit) and assignment over the container both leave an external drop counter
for the contained value unchanged, whatever the value's destructor `δ`
does — the container never runs the contained value's destructor. -/
theorem no_drop_by_container (T : Type) (δ : T → Nat → Nat)
    (u : UntaggedOption T) (c : Nat)
    (h : UntaggedOption.isOccupied u = true) :
    UntaggedOption.dropGlue δ u c = c ∧
    UntaggedOption.assignDropEffect δ u c = c := by
  obtain ⟨val⟩ := u
  cases val <;>
    simp [UntaggedOption.dropGlue, UntaggedOption.assignDropEffect, fieldDropGlue]

/-- Witness for C3 at `T = Nat`, `v = 5`, with the counting destructor. -/
theorem no_drop_by_container_witness :
    UntaggedOption.dropGlue countDispose (UntaggedOption.some 5) 0 = 0 ∧
    UntaggedOption.assignDropEffect countDispose (UntaggedOption.some 5) 0 = 0 :=
  no_drop_by_container Nat countDispose (UntaggedOption.some 5) 0 rfl

/-- C4: constructing with `v` and calling `take`, then disposing of the
returned value, increments the external counter exactly once; the
container left behind disposes of nothing further when dropped. -/
theorem dispose_only_on_take (T : Type) (v : T) (c : Nat) :
    UntaggedOption.take (UntaggedOption.some v)
      = Option.some (v, UntaggedOption.none T) ∧
    countDispose v c = c + 1 ∧
    UntaggedOption.dropGlue countDispose (UntaggedOption.none T)
        (countDispose v c)
      = c + 1 :=
  ⟨rfl, rfl, rfl⟩

/-- C5: the occupancy state machine: every container is Empty or Occupied;
`none` yields Empty; `some` yields Occupied; `take` succeeds exactly on
Occupied and always leaves Empty; `as_ref` and a write through `as_mut`
succeed exactly on Occupied, and the write leaves Occupied (`as_ref` takes
`&self` and returns no new state, so it cannot transition at all). -/
theorem occupancy_state_machine (T : Type) (t : T) (u : UntaggedOption T) :
    (u = UntaggedOption.none T ∨ ∃ x, u = UntaggedOption.some x) ∧
    UntaggedOption.isOccupied (UntaggedOption.none T) = false ∧
    UntaggedOption.isOccupied (UntaggedOption.some t) = true ∧
    (UntaggedOption.take u).isSome = UntaggedOption.isOccupied u ∧
    Option.all (fun p => !UntaggedOption.isOccupied p.2)
        (UntaggedOption.take u) = true ∧
    (UntaggedOption.as_ref u).isSome = UntaggedOption.isOccupied u ∧
    (UntaggedOption.as_mut_write u t).isSome = UntaggedOption.isOccupied u ∧
    Option.all (fun u2 => UntaggedOption.isOccupied u2)
        (UntaggedOption.as_mut_write u t) = true := by
  obtain ⟨val⟩ := u
  cases val <;>
    simp [UntaggedOption.none, UntaggedOption.some, UntaggedOption.take,
      UntaggedOption.as_ref, UntaggedOption.as_mut_write,
      UntaggedOption.as_mut, UntaggedOption.isOccupied, Option.all]

/-- C6: `take`, `as_ref` and `as_mut` are well-defined on an Occupied
container (the read-uninitialized branch is not taken), while on the Empty
container each reaches the undefined branch — modelled as `Option.none`,
which is the embedding's marker for undefined behaviour, not a detected or
recoverable error (the source performs no runtime check). -/
theorem unchecked_preconditions (T : Type) (t w : T) :
    UntaggedOption.take (UntaggedOption.some t)
      = Option.some (t, UntaggedOption.none T) ∧
    UntaggedOption.as_ref (UntaggedOption.some t) = Option.some t ∧
    UntaggedOption.as_mut_write (UntaggedOption.some t) w
      = Option.some (UntaggedOption.some w) ∧
    UntaggedOption.take (UntaggedOption.none T) = Option.none ∧
    UntaggedOption.as_ref (UntaggedOption.none T) = Option.none ∧
    UntaggedOption.as_mut_write (UntaggedOption.none T) w = Option.none :=
  ⟨rfl, rfl, rfl, rfl, rfl, rfl⟩

/-- C7: for every layout of `T`, the union `UntaggedOption<T>` has exactly
the size of `T` (and the alignment of `T`): no discriminant byte and no
padding beyond `T`'s natural alignment. -/
theorem untagged_size_eq (t : Layout) :
    (untaggedOptionLayout t).size = t.size ∧
    (untaggedOptionLayout t).align = t.align := by
  constructor
  · show roundUp (max t.size unitLayout.size) (max t.align unitLayout.align)
      = t.size
    rw [show unitLayout.size = 0 from rfl, show unitLayout.align = 1 from rfl,
      Nat.max_eq_left (Nat.zero_le _), Nat.max_eq_left t.align_pos]
    exact roundUp_dvd_eq t.size t.align t.align_pos t.size_aligned
  · show max t.align unitLayout.align = t.align
    rw [show unitLayout.align = 1 from rfl]
    exact Nat.max_eq_left t.align_pos

/-- C8: `UntaggedOption::none()` takes no value of `T` and stores none: the
resulting region holds no `T` (it is not equal to any `some t`) and is
Empty.  In the source it is a `const fn` performing no allocation; in the
embedding it is correspondingly a closed computable constant. -/
theorem none_no_value (T : Type) :
    (UntaggedOption.none T).val = Option.none ∧
    (∀ t : T, UntaggedOption.none T ≠ UntaggedOption.some t) ∧
    UntaggedOption.isOccupied (UntaggedOption.none T) = false :=
  ⟨rfl, fun _ h => Option.noConfusion (congrArg UntaggedOption.val h), rfl⟩

/-- C9: mutations persist into extraction: after `UntaggedOption::some(v)`,
writing `w` through `as_mut` and then calling `take` returns `w`, not `v`,
and leaves the container Empty — all three operations use the same
storage. -/
theorem as_mut_write_take (T : Type) (v w : T) :
    (UntaggedOption.as_mut_write (UntaggedOption.some v) w).bind
        UntaggedOption.take
      = Option.some (w, UntaggedOption.none T) :=
  rfl

/-- C10: the constructors are total and safe: `none` and `some t` are
defined for every `T` and every `t`, producing exactly the stated states
with no precondition; in contrast each of the three `unsafe` operations
has an input (the Empty container) on which it reaches the undefined
branch. -/
theorem constructors_safe_total (T : Type) (t : T) :
    (UntaggedOption.some t).val = Option.some t ∧
    (UntaggedOption.none T).val = Option.none ∧
    (UntaggedOption.take (UntaggedOption.none T)).isNone = true ∧
    (UntaggedOption.as_ref (UntaggedOption.none T)).isNone = true ∧
    (UntaggedOption.as_mut (UntaggedOption.none T)).isNone = true :=
  ⟨rfl, rfl, rfl, rfl, rfl⟩
